import Mathlib

/-!
Shallow embedding of the MAF (Maximum Aerobic Function) activity-analysis core:
the per-activity analyzer, trend builder, summary aggregator, pace converter and
advisory selector.  JavaScript numbers are modelled as exact rationals (`ℚ`),
dates as epoch-millisecond integers (`ℤ`), nullable values as `Option`, and the
implicit wall-clock reads (`Date.now()`) as an explicit `now : ℤ` parameter.
-/

namespace Maf

/-- Unit system for pace conversion/display: kilometres or miles. -/
inductive Units where
  | km
  | mi
deriving DecidableEq

def metersPerMile : ℚ := 1609344 / 1000

def metersPerKm : ℚ := 1000

/-- `velocityToPace(metersPerSec, units)`: minutes per unit distance, 0 for
non-positive velocity. -/
def velocityToPace (metersPerSec : ℚ) (units : Units) : ℚ :=
  if metersPerSec ≤ 0 then 0
  else
    let divisor := if units = Units.mi then metersPerMile else metersPerKm
    divisor / metersPerSec / 60

/-- `computeEF(avgSpeedMs, avgHr)`: meters-per-minute divided by average heart
rate; 0 if either operand is non-positive. -/
def computeEF (avgSpeedMs : ℚ) (avgHr : ℚ) : ℚ :=
  if avgHr ≤ 0 ∨ avgSpeedMs ≤ 0 then 0
  else
    let metersPerMin := avgSpeedMs * 60
    metersPerMin / avgHr

/-- JavaScript truthiness of an optional number (`undefined`/`null`/`0` are
falsy). -/
def jsTruthy : Option ℚ → Bool
  | none => false
  | some v => v != 0

/-- JavaScript `x || 0` on an optional number. -/
def jsOrZero : Option ℚ → ℚ
  | none => 0
  | some v => v

/-- The raw platform activity record (the fields read by the analyzer).
`start_date` is the epoch-millisecond timestamp of the parsed ISO-8601 date. -/
structure RawActivity where
  id : ℤ
  name : String
  start_date : ℤ
  elapsed_time : ℚ
  distance : ℚ
  average_speed : ℚ
  average_heartrate : Option ℚ
  average_cadence : Option ℚ
  total_elevation_gain : Option ℚ
deriving DecidableEq

/-- Optional sensor stream set; the `{data: number[]}` wrapper of each present
stream is collapsed to the list itself. -/
structure StreamData where
  heartrate : Option (List ℚ)
  cadence : Option (List ℚ)
  velocity_smooth : Option (List ℚ)
  time : Option (List ℚ)
  distance : Option (List ℚ)
  altitude : Option (List ℚ)
deriving DecidableEq

/-- The analyzed per-activity record (`MAFActivity` in the source). -/
structure MAFActivity where
  id : ℤ
  date : ℤ
  name : String
  duration_seconds : ℚ
  distance_meters : ℚ
  avg_hr : ℚ
  avg_cadence : ℚ
  avg_pace : ℚ
  time_in_maf_zone_pct : ℚ
  time_in_qualifying_zone_pct : ℚ
  maf_pace : ℚ
  elevation_gain : ℚ
  cardiac_drift : Option ℚ
  aerobic_decoupling : Option ℚ
  cadence_in_zone : Option ℚ
  efficiency_factor : ℚ
  qualifying : Bool
  excluded : Bool
deriving DecidableEq

/-- Accumulator of the single pass over the stream samples. -/
structure ZoneAcc where
  inZoneCount : ℕ
  inQualifyingCount : ℕ
  inZonePaceSum : ℚ
  inZoneCadenceSum : ℚ
  inZoneCadenceCount : ℕ
deriving DecidableEq

/-- One iteration of the sample loop of `analyzeActivity` (index `i`). -/
def zoneStep (mafZoneLow mafZoneHigh qualifyingHigh : ℚ) (units : Units)
    (hr velocity : List ℚ) (cadence : Option (List ℚ)) (acc : ZoneAcc) (i : ℕ) : ZoneAcc :=
  let hrI := hr.getD i 0
  let acc1 :=
    if mafZoneLow ≤ hrI ∧ hrI ≤ mafZoneHigh then
      let accA := { acc with inZoneCount := acc.inZoneCount + 1 }
      let accB :=
        if 0 < velocity.getD i 0 then
          { accA with inZonePaceSum := accA.inZonePaceSum + velocityToPace (velocity.getD i 0) units }
        else accA
      match cadence with
      | some cad =>
          if 0 < cad.getD i 0 then
            { accB with
                inZoneCadenceSum := accB.inZoneCadenceSum + cad.getD i 0 * 2
                inZoneCadenceCount := accB.inZoneCadenceCount + 1 }
          else accB
      | none => accB
    else acc
  if mafZoneLow ≤ hrI ∧ hrI ≤ qualifyingHigh then
    { acc1 with inQualifyingCount := acc1.inQualifyingCount + 1 }
  else acc1

/-- The full sample loop `for (let i = 0; i < len; i++)`. -/
def zoneLoop (mafZoneLow mafZoneHigh qualifyingHigh : ℚ) (units : Units)
    (hr velocity : List ℚ) (cadence : Option (List ℚ)) (len : ℕ) : ZoneAcc :=
  (List.range len).foldl (zoneStep mafZoneLow mafZoneHigh qualifyingHigh units hr velocity cadence)
    ⟨0, 0, 0, 0, 0⟩

/-- The stream-derived metric block of an analyzed activity. -/
structure StreamMetrics where
  timeInZonePct : ℚ
  timeInQualifyingPct : ℚ
  mafPace : ℚ
  cardiacDrift : Option ℚ
  aerobicDecoupling : Option ℚ
  cadenceInZone : Option ℚ
deriving DecidableEq

/-- The stream branch of `analyzeActivity` (heart-rate and velocity streams
present).  Note the second halves for drift/decoupling are `slice(midpoint)` of
the FULL arrays, exactly as in the source. -/
def analyzeStreams (hr velocity : List ℚ) (cadence : Option (List ℚ))
    (mafZoneLow mafZoneHigh qualifyingHigh : ℚ) (units : Units) (avgPace : ℚ) : StreamMetrics :=
  let len := min hr.length velocity.length
  let acc := zoneLoop mafZoneLow mafZoneHigh qualifyingHigh units hr velocity cadence len
  let timeInZonePct := if 0 < len then ((acc.inZoneCount : ℚ) / (len : ℚ)) * 100 else 0
  let timeInQualifyingPct := if 0 < len then ((acc.inQualifyingCount : ℚ) / (len : ℚ)) * 100 else 0
  let mafPace := if 0 < acc.inZoneCount then acc.inZonePaceSum / (acc.inZoneCount : ℚ) else avgPace
  let cadenceInZone :=
    if 0 < acc.inZoneCadenceCount then some (acc.inZoneCadenceSum / (acc.inZoneCadenceCount : ℚ))
    else none
  let midpoint := len / 2
  let cardiacDrift :=
    if 0 < midpoint then
      let firstHalfHr := (hr.take midpoint).sum / (midpoint : ℚ)
      let secondHalfHr := (hr.drop midpoint).sum / ((len - midpoint : ℕ) : ℚ)
      if 0 < firstHalfHr then some (((secondHalfHr - firstHalfHr) / firstHalfHr) * 100) else none
    else none
  let aerobicDecoupling :=
    if 0 < midpoint then
      let p1 := velocity.take midpoint
      let p2 := velocity.drop midpoint
      let h1 := hr.take midpoint
      let h2 := hr.drop midpoint
      let p1Count := p1.length
      let p2Count := p2.length
      let firstHalfPace := p1.sum / (p1Count : ℚ)
      let secondHalfPace := p2.sum / (p2Count : ℚ)
      let firstHalfHr := h1.sum / (p1Count : ℚ)
      let secondHalfHr := h2.sum / (p2Count : ℚ)
      if 0 < firstHalfPace ∧ 0 < firstHalfHr then
        let paceRatio := secondHalfPace / firstHalfPace
        let hrRatio := secondHalfHr / firstHalfHr
        if 0 < hrRatio then some ((paceRatio / hrRatio - 1) * 100) else none
      else none
    else none
  { timeInZonePct := timeInZonePct
    timeInQualifyingPct := timeInQualifyingPct
    mafPace := mafPace
    cardiacDrift := cardiacDrift
    aerobicDecoupling := aerobicDecoupling
    cadenceInZone := cadenceInZone }

/-- The no-stream branch of `analyzeActivity`: coarse 75/25 estimate from the
activity-level average heart rate (if truthy), everything else defaulted. -/
def noStreamMetrics (activity : RawActivity) (mafZoneLow mafZoneHigh qualifyingHigh : ℚ)
    (avgPace : ℚ) : StreamMetrics :=
  if jsTruthy activity.average_heartrate then
    let ahr := jsOrZero activity.average_heartrate
    { timeInZonePct := if mafZoneLow ≤ ahr ∧ ahr ≤ mafZoneHigh then 75 else 25
      timeInQualifyingPct := if mafZoneLow ≤ ahr ∧ ahr ≤ qualifyingHigh then 75 else 25
      mafPace := avgPace
      cardiacDrift := none
      aerobicDecoupling := none
      cadenceInZone := none }
  else
    { timeInZonePct := 0
      timeInQualifyingPct := 0
      mafPace := avgPace
      cardiacDrift := none
      aerobicDecoupling := none
      cadenceInZone := none }

/-- `analyzeActivity(activity, streams, mafHr, mafZoneLow, mafZoneHigh,
qualifyingTolerance, units, excluded)`. -/
def analyzeActivity (activity : RawActivity) (streams : Option StreamData)
    (mafHr mafZoneLow mafZoneHigh qualifyingTolerance : ℚ) (units : Units)
    (excluded : Bool) : MAFActivity :=
  let avgPace := if 0 < activity.average_speed then velocityToPace activity.average_speed units else 0
  let ef := computeEF activity.average_speed (jsOrZero activity.average_heartrate)
  let qualifyingHigh := mafZoneHigh + qualifyingTolerance
  let metrics :=
    match streams with
    | some s =>
      match s.heartrate, s.velocity_smooth with
      | some hrData, some velocityData =>
          analyzeStreams hrData velocityData s.cadence mafZoneLow mafZoneHigh qualifyingHigh units avgPace
      | some _, none => noStreamMetrics activity mafZoneLow mafZoneHigh qualifyingHigh avgPace
      | none, _ => noStreamMetrics activity mafZoneLow mafZoneHigh qualifyingHigh avgPace
    | none => noStreamMetrics activity mafZoneLow mafZoneHigh qualifyingHigh avgPace
  let qualifying :=
    !excluded && decide (1200 ≤ activity.elapsed_time) && decide (60 ≤ metrics.timeInQualifyingPct)
  { id := activity.id
    date := activity.start_date
    name := activity.name
    duration_seconds := activity.elapsed_time
    distance_meters := activity.distance
    avg_hr := jsOrZero activity.average_heartrate
    avg_cadence := if jsTruthy activity.average_cadence then jsOrZero activity.average_cadence * 2 else 0
    avg_pace := avgPace
    time_in_maf_zone_pct := metrics.timeInZonePct
    time_in_qualifying_zone_pct := metrics.timeInQualifyingPct
    maf_pace := metrics.mafPace
    elevation_gain := jsOrZero activity.total_elevation_gain
    cardiac_drift := metrics.cardiacDrift
    aerobic_decoupling := metrics.aerobicDecoupling
    cadence_in_zone := metrics.cadenceInZone
    efficiency_factor := ef
    qualifying := qualifying
    excluded := excluded }

def msPerDay : ℤ := 86400000

/-- JavaScript `Array.prototype.filter` with an `(element, index)` callback,
starting the index counter at `n`. -/
def jsFilterIdx {α : Type} (p : α → ℕ → Bool) : List α → ℕ → List α
  | [], _ => []
  | a :: as, n => if p a n then a :: jsFilterIdx p as (n + 1) else jsFilterIdx p as (n + 1)

/-- JavaScript `Array.prototype.map` with an `(element, index)` callback,
starting the index counter at `n`. -/
def jsMapIdx {α β : Type} (f : α → ℕ → β) : List α → ℕ → List β
  | [], _ => []
  | a :: as, n => f a n :: jsMapIdx f as (n + 1)

/-- `[...xs].sort((a, b) => ta - tb)`: stable sort ascending by date. -/
def sortByDateAsc (l : List MAFActivity) : List MAFActivity :=
  l.mergeSort (fun a b => decide (a.date ≤ b.date))

/-- `[...xs].sort((a, b) => tb - ta)`: stable sort descending by date. -/
def sortByDateDesc (l : List MAFActivity) : List MAFActivity :=
  l.mergeSort (fun a b => decide (b.date ≤ a.date))

/-- One trend point per analyzed activity (`MAFTrend` in the source). -/
structure MAFTrend where
  date : ℤ
  avgHr : ℚ
  rollingHr : Option ℚ
  mafPace : ℚ
  rollingMafPace : Option ℚ
  ef : ℚ
  rollingEf : Option ℚ
  cadence : Option ℚ
  rollingCadence : Option ℚ
  decoupling : Option ℚ
  rollingDecoupling : Option ℚ
  timeInZonePct : ℚ
  qualifying : Bool
deriving DecidableEq

/-- The body of `computeTrends`'s `included.map((a, i) => ...)` callback. -/
def trendPoint (included : List MAFActivity) (a : MAFActivity) (i : ℕ) : MAFTrend :=
  let fourWeeksAgo := a.date - 28 * msPerDay
  let window := jsFilterIdx (fun w wi => decide (wi ≤ i) && decide (fourWeeksAgo ≤ w.date)) included 0
  let rollingHr :=
    if 2 ≤ window.length then some ((window.map (·.avg_hr)).sum / (window.length : ℚ)) else none
  let rollingMafPace :=
    if 2 ≤ window.length then some ((window.map (·.maf_pace)).sum / (window.length : ℚ)) else none
  let rollingEf :=
    if 2 ≤ window.length then
      some ((window.map (·.efficiency_factor)).sum / (window.length : ℚ))
    else none
  let cadenceWindow := window.filter (fun w => w.cadence_in_zone.isSome)
  let rollingCadence :=
    if 2 ≤ cadenceWindow.length then
      some ((cadenceWindow.map (fun w => w.cadence_in_zone.getD 0)).sum / (cadenceWindow.length : ℚ))
    else none
  let decouplingWindow := window.filter (fun w => w.aerobic_decoupling.isSome)
  let rollingDecoupling :=
    if 2 ≤ decouplingWindow.length then
      some ((decouplingWindow.map (fun w => w.aerobic_decoupling.getD 0)).sum /
        (decouplingWindow.length : ℚ))
    else none
  { date := a.date
    avgHr := a.avg_hr
    rollingHr := rollingHr
    mafPace := a.maf_pace
    rollingMafPace := rollingMafPace
    ef := a.efficiency_factor
    rollingEf := rollingEf
    cadence := a.cadence_in_zone
    rollingCadence := rollingCadence
    decoupling := a.aerobic_decoupling
    rollingDecoupling := rollingDecoupling
    timeInZonePct := a.time_in_maf_zone_pct
    qualifying := a.qualifying }

/-- `computeTrends(activities)`. -/
def computeTrends (activities : List MAFActivity) : List MAFTrend :=
  let included := sortByDateAsc (activities.filter (fun a => !a.excluded))
  if included.length = 0 then []
  else jsMapIdx (trendPoint included) included 0

/-- Trend classification of a metric. -/
inductive Direction where
  | improving
  | plateau
  | regressing
  | insufficient
deriving DecidableEq

/-- The summary record (`MAFSummary` in the source). -/
structure MAFSummary where
  currentAvgHr : Option ℚ
  hrTrendDirection : Direction
  hrTrendSlope : Option ℚ
  zoneDiscipline : Option ℚ
  currentMafPace : Option ℚ
  paceTrendDirection : Direction
  paceTrendSlope : Option ℚ
  currentEf : Option ℚ
  efTrendDirection : Direction
  avgDecoupling : Option ℚ
  avgCadence : Option ℚ
  totalRuns : ℕ
  totalQualifyingRuns : ℕ
  qualifyingPct : ℚ
deriving DecidableEq

/-- `linearSlope(points)`: closed-form ordinary-least-squares slope. -/
def linearSlope (points : List (ℚ × ℚ)) : ℚ :=
  let n := points.length
  if n < 2 then 0
  else
    let sumX := (points.map (·.1)).sum
    let sumY := (points.map (·.2)).sum
    let sumXY := (points.map (fun p => p.1 * p.2)).sum
    let sumXX := (points.map (fun p => p.1 * p.1)).sum
    let denom := (n : ℚ) * sumXX - sumX * sumX
    if denom ≠ 0 then ((n : ℚ) * sumXY - sumX * sumY) / denom else 0

/-- The summary returned for an empty included set. -/
def emptySummary : MAFSummary :=
  { currentAvgHr := none
    hrTrendDirection := Direction.insufficient
    hrTrendSlope := none
    zoneDiscipline := none
    currentMafPace := none
    paceTrendDirection := Direction.insufficient
    paceTrendSlope := none
    currentEf := none
    efTrendDirection := Direction.insufficient
    avgDecoupling := none
    avgCadence := none
    totalRuns := 0
    totalQualifyingRuns := 0
    qualifyingPct := 0 }

/-- `sorted` inside `computeSummary`: non-excluded activities, date-ascending. -/
def summarySorted (activities : List MAFActivity) : List MAFActivity :=
  sortByDateAsc (activities.filter (fun a => !a.excluded))

/-- `trendWindow` inside `computeSummary`: the trailing 8 weeks from `now`. -/
def summaryTrendWindow (activities : List MAFActivity) (now : ℤ) : List MAFActivity :=
  (summarySorted activities).filter (fun a => decide (now - 56 * msPerDay ≤ a.date))

/-- `toWeeks` inside `computeSummary`. -/
def toWeeks (baseTime : ℤ) (d : ℤ) : ℚ :=
  ((d - baseTime : ℤ) : ℚ) / ((7 * 24 * 60 * 60 * 1000 : ℤ) : ℚ)

/-- The `(x, y)` regression points for the HR trend. -/
def hrPoints (activities : List MAFActivity) (now : ℤ) : List (ℚ × ℚ) :=
  let tw := summaryTrendWindow activities now
  let baseTime := (tw.head?.map (·.date)).getD 0
  tw.map (fun a => (toWeeks baseTime a.date, a.avg_hr))

/-- The `(x, y)` regression points for the pace trend. -/
def pacePoints (activities : List MAFActivity) (now : ℤ) : List (ℚ × ℚ) :=
  let tw := summaryTrendWindow activities now
  let baseTime := (tw.head?.map (·.date)).getD 0
  tw.map (fun a => (toWeeks baseTime a.date, a.maf_pace))

/-- The `(x, y)` regression points for the efficiency-factor trend. -/
def efPoints (activities : List MAFActivity) (now : ℤ) : List (ℚ × ℚ) :=
  let tw := summaryTrendWindow activities now
  let baseTime := (tw.head?.map (·.date)).getD 0
  tw.map (fun a => (toWeeks baseTime a.date, a.efficiency_factor))

/-- HR slope classification: `< -0.3` improving, `> 0.3` regressing, else
plateau. -/
def hrDirectionOfSlope (s : ℚ) : Direction :=
  if s < -(3 / 10) then Direction.improving
  else if (3 / 10 : ℚ) < s then Direction.regressing
  else Direction.plateau

/-- Pace slope classification (input already scaled to seconds/week). -/
def paceDirectionOfSlope (s : ℚ) : Direction :=
  if s < -1 then Direction.improving
  else if (1 : ℚ) < s then Direction.regressing
  else Direction.plateau

/-- EF slope classification. -/
def efDirectionOfSlope (s : ℚ) : Direction :=
  if (1 / 100 : ℚ) < s then Direction.improving
  else if s < -(1 / 100) then Direction.regressing
  else Direction.plateau

/-- The HR trend direction computed by `computeSummary` on a non-empty
included set. -/
def summaryHrDirection (activities : List MAFActivity) (now : ℤ) : Direction :=
  if 3 ≤ (summaryTrendWindow activities now).length then
    hrDirectionOfSlope (linearSlope (hrPoints activities now))
  else Direction.insufficient

/-- `computeSummary(activities)`, with the implicit `Date.now()` read made an
explicit `now` parameter. -/
def computeSummary (activities : List MAFActivity) (now : ℤ) : MAFSummary :=
  let included := activities.filter (fun a => !a.excluded)
  let qualifying := included.filter (fun a => a.qualifying)
  if included.length = 0 then emptySummary
  else
    let sorted := summarySorted activities
    let fourWeeksAgo := now - 28 * msPerDay
    let recent := sorted.filter (fun a => decide (fourWeeksAgo ≤ a.date))
    let trendWin := summaryTrendWindow activities now
    let currentAvgHr :=
      if 0 < recent.length then (recent.map (·.avg_hr)).sum / (recent.length : ℚ)
      else ((sorted.getLast?.map (·.avg_hr)).getD 0)
    let currentMafPace :=
      if 0 < recent.length then (recent.map (·.maf_pace)).sum / (recent.length : ℚ)
      else ((sorted.getLast?.map (·.maf_pace)).getD 0)
    let currentEf :=
      if 0 < recent.length then (recent.map (·.efficiency_factor)).sum / (recent.length : ℚ)
      else ((sorted.getLast?.map (·.efficiency_factor)).getD 0)
    let hrTrendSlope :=
      if 3 ≤ trendWin.length then some (linearSlope (hrPoints activities now)) else none
    let paceTrendSlope :=
      if 3 ≤ trendWin.length then some (linearSlope (pacePoints activities now) * 60) else none
    let paceTrendDirection :=
      match paceTrendSlope with
      | some s => paceDirectionOfSlope s
      | none => Direction.insufficient
    let efTrendDirection :=
      if 3 ≤ trendWin.length then efDirectionOfSlope (linearSlope (efPoints activities now))
      else Direction.insufficient
    let zoneDiscipline :=
      if 0 < included.length then
        some ((included.map (·.time_in_maf_zone_pct)).sum / (included.length : ℚ))
      else none
    let withDecoupling := qualifying.filter (fun a => a.aerobic_decoupling.isSome)
    let avgDecoupling :=
      if 0 < withDecoupling.length then
        some ((withDecoupling.map (fun a => a.aerobic_decoupling.getD 0)).sum /
          (withDecoupling.length : ℚ))
      else none
    let withCadence := qualifying.filter (fun a => a.cadence_in_zone.isSome)
    let avgCadence :=
      if 0 < withCadence.length then
        some ((withCadence.map (fun a => a.cadence_in_zone.getD 0)).sum / (withCadence.length : ℚ))
      else none
    { currentAvgHr := some currentAvgHr
      hrTrendDirection := summaryHrDirection activities now
      hrTrendSlope := hrTrendSlope
      zoneDiscipline := zoneDiscipline
      currentMafPace := some currentMafPace
      paceTrendDirection := paceTrendDirection
      paceTrendSlope := paceTrendSlope
      currentEf := some currentEf
      efTrendDirection := efTrendDirection
      avgDecoupling := avgDecoupling
      avgCadence := avgCadence
      totalRuns := included.length
      totalQualifyingRuns := qualifying.length
      qualifyingPct :=
        if 0 < included.length then ((qualifying.length : ℚ) / (included.length : ℚ)) * 100 else 0 }

/-- `padStart(2, '0')` -/
def padStart2 (s : String) : String :=
  if 2 ≤ s.length then s else if s.length = 1 then "0" ++ s else "00"

/-- Display name of a unit system. -/
def unitsStr : Units → String
  | Units.km => "km"
  | Units.mi => "mi"

/-- `formatPace(pace, units)`: `"M:SS /unit"`; seconds are rounded to nearest
and NOT carried into the minutes when they round to 60. -/
def formatPace (pace : ℚ) (units : Units) : String :=
  let minutes := ⌊pace⌋
  let seconds := round ((pace - (minutes : ℚ)) * 60)
  toString minutes ++ ":" ++ padStart2 (toString seconds) ++ " /" ++ unitsStr units

/-- A coaching advice record (`Advice` in the source). -/
structure Advice where
  headline : String
  body : String
  focus : String
  color : String
deriving DecidableEq

/-- The `"${mafZoneLow}–${mafZoneHigh} bpm"` zone string. -/
def zoneStr (mafZoneLow mafZoneHigh : ℤ) : String :=
  toString mafZoneLow ++ "–" ++ toString mafZoneHigh ++ " bpm"

/-- JavaScript `x.toFixed(0)` on an exact rational (round to nearest, ties
toward the larger value). -/
def jsToFixed0 (q : ℚ) : String :=
  toString (round q)

/-- `Math.max(...xs)` over a list (0 for the empty list, which the source
guards against reaching). -/
def jsMathMax : List ℚ → ℚ
  | [] => 0
  | d :: ds => ds.foldl max d

/-- `daysSinceLastRun` inside `generateAdvice`: whole days since the most
recent activity, 999 when there is none. -/
def daysSinceLastRun (activities : List MAFActivity) (now : ℤ) : ℤ :=
  match sortByDateDesc activities with
  | [] => 999
  | a :: _ => Int.fdiv (now - a.date) msPerDay

/-- Priority 1: consistency advice. -/
def adviceConsistency (daysSince : ℤ) (zone : String) : Advice :=
  { headline := "Time to Run!"
    body := "It\x27s been " ++ toString daysSince ++ " days since your last run. Get out for an easy 30–40 minute run. The key: keep your heart rate in the " ++ zone ++ " zone. Walk uphills if needed — the pace doesn\x27t matter, the HR does."
    focus := "Consistency"
    color := "border-yellow-500" }

/-- Priority 2: HR-control advice. -/
def adviceHrControl (hrDeviation : ℚ) (mafHr : ℤ) (zone : String) : Advice :=
  { headline := "Bring Your Heart Rate Down"
    body := "Your average HR is running " ++ toString (round hrDeviation) ++ " bpm above your MAF target of " ++ toString mafHr ++ ". This is the #1 thing to fix. Slow down significantly — walk if you have to. Your target zone is " ++ zone ++ ". The pace will feel painfully slow at first, but that\x27s the point. Your aerobic system needs this."
    focus := "HR Control"
    color := "border-red-500" }

/-- Priority 3: zone-discipline advice. -/
def adviceZoneDiscipline (avgZoneDiscipline : ℚ) (mafZoneLow mafZoneHigh : ℤ) (zone : String) :
    Advice :=
  { headline := "Stay in the Zone"
    body := "Only " ++ jsToFixed0 avgZoneDiscipline ++ "% of your run time is in the MAF zone (" ++ zone ++ "). You\x27re likely starting too fast or pushing on hills. Warm up with 5 minutes of walking, then ease into a pace where your HR stays between " ++ toString mafZoneLow ++ "–" ++ toString mafZoneHigh ++ ". Walk uphills. Target: >75% time in zone."
    focus := "Zone Discipline"
    color := "border-red-500" }

/-- Priority 4: recovery-week advice. -/
def adviceRecovery (zone : String) : Advice :=
  { headline := "Recovery Week"
    body := "Your heart rate is trending upward over the past 8 weeks — possible overtraining, poor sleep, illness, or heat stress. Consider a recovery week: 3 easy runs of 25–30 minutes max, keeping HR firmly in " ++ zone ++ ". Reassess in 7 days."
    focus := "Recovery"
    color := "border-red-500" }

/-- Priority 5: cadence-drill advice. -/
def adviceCadence (avgCadence : ℚ) (zone : String) : Advice :=
  { headline := "Work on Cadence"
    body := "Your average cadence is " ++ toString (round avgCadence) ++ " spm, below the 170 target. Higher cadence at MAF HR means lighter, more efficient steps. Try a cadence drill: 30 seconds at 180+ spm every 5 minutes during your next run. Keep HR in " ++ zone ++ "."
    focus := "Cadence"
    color := "border-yellow-500" }

/-- Priority 6: add-volume advice. -/
def adviceVolume (weeklyCount : ℕ) (zone : String) : Advice :=
  { headline := "Add Another Run"
    body := "Your HR trend has plateaued and you\x27re running " ++ toString weeklyCount ++ "× per week. Adding a 4th easy run at MAF HR (" ++ zone ++ ") can help your aerobic system adapt faster. Duration: 40–60 minutes."
    focus := "Volume"
    color := "border-yellow-500" }

/-- Priority 7: extend-long-run advice. -/
def adviceDuration (suggestedDuration : ℤ) (zone : String) : Advice :=
  { headline := "Extend Your Long Run"
    body := "Your aerobic system is adapting well — HR is dropping and decoupling is under 5%. Try " ++ toString suggestedDuration ++ " minutes this week at MAF HR (" ++ zone ++ "). Your body is ready for more volume."
    focus := "Duration"
    color := "border-green-500" }

/-- Priority 8: generic encouragement while improving. -/
def adviceKeepItUp (zone : String) : Advice :=
  { headline := "Keep It Up!"
    body := "Your heart rate is trending down — your aerobic system is building. Stay consistent with your current training at " ++ zone ++ ". No changes needed, just patience."
    focus := "Consistency"
    color := "border-green-500" }

/-- Priority 9: fallback consistency advice. -/
def adviceFallback (zone : String) : Advice :=
  { headline := "Stay Consistent"
    body := "Keep running 3–4 times per week with your heart rate in " ++ zone ++ ". Focus on the HR, not the pace. Walk uphills, slow down on hot days. Progress takes patience — trust the process."
    focus := "Consistency"
    color := "border-gray-500" }

/-- `generateAdvice(summary, activities, mafHr, mafZoneLow, mafZoneHigh,
units)`: the fixed-order priority cascade, with the implicit `Date.now()` read
made an explicit `now` parameter. -/
def generateAdvice (summary : MAFSummary) (activities : List MAFActivity)
    (mafHr mafZoneLow mafZoneHigh : ℤ) (units : Units) (now : ℤ) : Advice :=
  let zone := zoneStr mafZoneLow mafZoneHigh
  let daysSince := daysSinceLastRun activities now
  let sevenDaysAgo := now - 7 * msPerDay
  let recentRuns := activities.filter (fun a => decide (sevenDaysAgo ≤ a.date))
  let weeklyCount := recentRuns.length
  let avgZoneDiscipline := jsOrZero summary.zoneDiscipline
  let avgCadence := jsOrZero summary.avgCadence
  let avgDecoupling := jsOrZero summary.avgDecoupling
  let hrDeviation : ℚ :=
    match summary.currentAvgHr with
    | some v => v - (mafHr : ℚ)
    | none => 0
  if 3 ≤ daysSince then adviceConsistency daysSince zone
  else if 5 < hrDeviation then adviceHrControl hrDeviation mafHr zone
  else if avgZoneDiscipline < 60 then adviceZoneDiscipline avgZoneDiscipline mafZoneLow mafZoneHigh zone
  else if summary.hrTrendDirection = Direction.regressing then adviceRecovery zone
  else if 0 < avgCadence ∧ avgCadence < 170 then adviceCadence avgCadence zone
  else if weeklyCount < 3 ∧ summary.hrTrendDirection = Direction.plateau then
    adviceVolume weeklyCount zone
  else if summary.hrTrendDirection = Direction.improving ∧ avgDecoupling < 5 then
    let longestRecent := jsMathMax (recentRuns.map (·.duration_seconds))
    let suggestedDuration : ℤ := if 0 < longestRecent then round (longestRecent / 60) + 10 else 50
    adviceDuration suggestedDuration zone
  else if summary.hrTrendDirection = Direction.improving then adviceKeepItUp zone
  else adviceFallback zone

/-! ### Helper lemmas -/

theorem jsFilterIdx_take_filter {α : Type} (q : α → Bool) (i : ℕ) (l : List α) :
    ∀ n, jsFilterIdx (fun a k => decide (k ≤ i) && q a) l n = (l.take (i + 1 - n)).filter q := by
  induction l with
  | nil => intro n; simp [jsFilterIdx]
  | cons a as ih =>
    intro n
    rw [jsFilterIdx, ih (n + 1)]
    by_cases hn : n ≤ i
    · have h1 : i + 1 - n = (i - n) + 1 := by omega
      have h2 : i + 1 - (n + 1) = i - n := by omega
      cases hqa : q a <;> simp [hn, hqa, h1, h2, List.filter_cons]
    · have h1 : i + 1 - n = 0 := by omega
      have h2 : i + 1 - (n + 1) = 0 := by omega
      simp [hn, h1, h2]

theorem jsMapIdx_getElem? {α β : Type} (f : α → ℕ → β) (l : List α) :
    ∀ (n k : ℕ), (jsMapIdx f l n)[k]? = (l[k]?).map (fun a => f a (n + k)) := by
  induction l with
  | nil => intro n k; simp [jsMapIdx]
  | cons a as ih =>
    intro n k
    cases k with
    | zero => simp [jsMapIdx]
    | succ k =>
      have harith : n + (k + 1) = (n + 1) + k := by omega
      simp [jsMapIdx, ih (n + 1) k, harith]

theorem sortByDateAsc_eq_self {l : List MAFActivity}
    (h : l.Pairwise (fun a b => a.date ≤ b.date)) : sortByDateAsc l = l :=
  List.mergeSort_of_sorted (h.imp fun hab => by simpa using hab)

theorem sortByDateDesc_head_max {l rest : List MAFActivity} {a : MAFActivity}
    (h : sortByDateDesc l = a :: rest) : ∀ b ∈ l, b.date ≤ a.date := by
  intro b hb
  have hmem : b ∈ a :: rest := by
    rw [← h]
    exact List.mem_mergeSort.mpr hb
  have hsorted : (a :: rest).Pairwise (fun x y : MAFActivity => decide (y.date ≤ x.date) = true) := by
    rw [← h]
    exact List.sorted_mergeSort
      (fun x y z hxy hyz => by simp only [decide_eq_true_eq] at *; omega)
      (fun x y => by simp only [Bool.or_eq_true, decide_eq_true_eq]; omega) l
  rcases List.mem_cons.mp hmem with hba | hbr
  · exact le_of_eq (by rw [hba])
  · have := (List.pairwise_cons.mp hsorted).1 b hbr
    simpa using this

theorem sortByDateDesc_eq_nil {l : List MAFActivity} (h : sortByDateDesc l = []) : l = [] := by
  have := congrArg List.length h
  simp only [sortByDateDesc, List.length_mergeSort, List.length_nil] at this
  exact List.length_eq_zero.mp this

theorem daysSinceLastRun_ge_three (acts : List MAFActivity) (now : ℤ) (hne : acts ≠ [])
    (hgap : ∀ a ∈ acts, a.date + 3 * msPerDay ≤ now) : 3 ≤ daysSinceLastRun acts now := by
  unfold daysSinceLastRun
  cases h : sortByDateDesc acts with
  | nil => exact absurd (sortByDateDesc_eq_nil h) hne
  | cons a rest =>
    have ha : a ∈ acts := by
      have : a ∈ sortByDateDesc acts := by rw [h]; exact List.mem_cons_self a rest
      simpa [sortByDateDesc] using this
    have hgap_a := hgap a ha
    show 3 ≤ Int.fdiv (now - a.date) msPerDay
    rw [Int.fdiv_eq_ediv _ (by norm_num [msPerDay])]
    rw [Int.le_ediv_iff_mul_le (by norm_num [msPerDay] : (0 : ℤ) < msPerDay)]
    simp only [msPerDay] at *
    omega

theorem zoneStep_count_le (mafZoneLow mafZoneHigh qualifyingHigh : ℚ)
    (hq : mafZoneHigh ≤ qualifyingHigh) (units : Units) (hr velocity : List ℚ)
    (cadence : Option (List ℚ)) (acc : ZoneAcc) (i : ℕ)
    (h : acc.inZoneCount ≤ acc.inQualifyingCount) :
    (zoneStep mafZoneLow mafZoneHigh qualifyingHigh units hr velocity cadence acc i).inZoneCount ≤
      (zoneStep mafZoneLow mafZoneHigh qualifyingHigh units hr velocity cadence acc i).inQualifyingCount := by
  unfold zoneStep
  by_cases h1 : mafZoneLow ≤ hr.getD i 0 ∧ hr.getD i 0 ≤ mafZoneHigh
  · have h2 : mafZoneLow ≤ hr.getD i 0 ∧ hr.getD i 0 ≤ qualifyingHigh := ⟨h1.1, h1.2.trans hq⟩
    simp only [h1, h2, and_self, if_true]
    cases cadence <;> split_ifs <;>
      simp [apply_ite ZoneAcc.inZoneCount, apply_ite ZoneAcc.inQualifyingCount] <;> omega
  · simp only [h1, if_false]
    by_cases h2 : mafZoneLow ≤ hr.getD i 0 ∧ hr.getD i 0 ≤ qualifyingHigh
    · simp only [h2, if_true]
      exact Nat.le_succ_of_le h
    · simp only [h2, if_false]
      exact h

theorem foldl_zoneStep_count_le (mafZoneLow mafZoneHigh qualifyingHigh : ℚ)
    (hq : mafZoneHigh ≤ qualifyingHigh) (units : Units) (hr velocity : List ℚ)
    (cadence : Option (List ℚ)) :
    ∀ (l : List ℕ) (acc : ZoneAcc), acc.inZoneCount ≤ acc.inQualifyingCount →
      ((l.foldl (zoneStep mafZoneLow mafZoneHigh qualifyingHigh units hr velocity cadence)
          acc).inZoneCount ≤
        (l.foldl (zoneStep mafZoneLow mafZoneHigh qualifyingHigh units hr velocity cadence)
          acc).inQualifyingCount)
  | [], _, h => h
  | i :: is, acc, h =>
    foldl_zoneStep_count_le mafZoneLow mafZoneHigh qualifyingHigh hq units hr velocity cadence is _
      (zoneStep_count_le mafZoneLow mafZoneHigh qualifyingHigh hq units hr velocity cadence acc i h)

theorem zoneLoop_count_le (mafZoneLow mafZoneHigh qualifyingHigh : ℚ)
    (hq : mafZoneHigh ≤ qualifyingHigh) (units : Units) (hr velocity : List ℚ)
    (cadence : Option (List ℚ)) (len : ℕ) :
    (zoneLoop mafZoneLow mafZoneHigh qualifyingHigh units hr velocity cadence len).inZoneCount ≤
      (zoneLoop mafZoneLow mafZoneHigh qualifyingHigh units hr velocity cadence len).inQualifyingCount :=
  foldl_zoneStep_count_le mafZoneLow mafZoneHigh qualifyingHigh hq units hr velocity cadence
    (List.range len) ⟨0, 0, 0, 0, 0⟩ le_rfl

theorem analyzeStreams_pct_le (mafZoneLow mafZoneHigh qualifyingHigh : ℚ)
    (hq : mafZoneHigh ≤ qualifyingHigh) (hr velocity : List ℚ) (cadence : Option (List ℚ))
    (units : Units) (avgPace : ℚ) :
    (analyzeStreams hr velocity cadence mafZoneLow mafZoneHigh qualifyingHigh units
        avgPace).timeInZonePct ≤
      (analyzeStreams hr velocity cadence mafZoneLow mafZoneHigh qualifyingHigh units
        avgPace).timeInQualifyingPct := by
  have hc := zoneLoop_count_le mafZoneLow mafZoneHigh qualifyingHigh hq units hr velocity cadence
    (min hr.length velocity.length)
  unfold analyzeStreams
  by_cases hlen : 0 < min hr.length velocity.length
  · simp only [hlen, if_true]
    have hlenQ : (0 : ℚ) < ((min hr.length velocity.length : ℕ) : ℚ) := by exact_mod_cast hlen
    have hdiv := (div_le_div_iff_of_pos_right hlenQ).mpr (show ((zoneLoop mafZoneLow mafZoneHigh
        qualifyingHigh units hr velocity cadence (min hr.length velocity.length)).inZoneCount : ℚ) ≤
        ((zoneLoop mafZoneLow mafZoneHigh qualifyingHigh units hr velocity cadence
          (min hr.length velocity.length)).inQualifyingCount : ℚ) by exact_mod_cast hc)
    exact mul_le_mul_of_nonneg_right hdiv (by norm_num)
  · simp [hlen]

theorem noStreamMetrics_pct_le (mafZoneLow mafZoneHigh qualifyingHigh : ℚ)
    (hq : mafZoneHigh ≤ qualifyingHigh) (activity : RawActivity) (avgPace : ℚ) :
    (noStreamMetrics activity mafZoneLow mafZoneHigh qualifyingHigh avgPace).timeInZonePct ≤
      (noStreamMetrics activity mafZoneLow mafZoneHigh qualifyingHigh avgPace).timeInQualifyingPct := by
  unfold noStreamMetrics
  by_cases ht : jsTruthy activity.average_heartrate
  · simp only [ht, if_true]
    by_cases h1 : mafZoneLow ≤ jsOrZero activity.average_heartrate ∧
        jsOrZero activity.average_heartrate ≤ mafZoneHigh
    · have h2 : mafZoneLow ≤ jsOrZero activity.average_heartrate ∧
          jsOrZero activity.average_heartrate ≤ qualifyingHigh := ⟨h1.1, h1.2.trans hq⟩
      simp [h1, h2]
    · by_cases h2 : mafZoneLow ≤ jsOrZero activity.average_heartrate ∧
          jsOrZero activity.average_heartrate ≤ qualifyingHigh
      · have hB : ¬jsOrZero activity.average_heartrate ≤ mafZoneHigh := fun hb => h1 ⟨h2.1, hb⟩
        simp [h2, hB]
        norm_num
      · simp [h1, h2]
  · simp [ht]

unseal Rat.mul Rat.add Rat.sub Rat.inv Rat.ofScientific Nat.gcd List.mergeSort List.merge

/-! ### Concrete example data -/

/-- A minimal analyzed activity with the given date and average HR, used for
concrete instances. -/
def mkAct (d : ℤ) (hr : ℚ) : MAFActivity :=
  { id := 0
    date := d
    name := "run"
    duration_seconds := 1800
    distance_meters := 5000
    avg_hr := hr
    avg_cadence := 0
    avg_pace := 6
    time_in_maf_zone_pct := 80
    time_in_qualifying_zone_pct := 90
    maf_pace := 6
    elevation_gain := 0
    cardiac_drift := none
    aerobic_decoupling := none
    cadence_in_zone := none
    efficiency_factor := 1
    qualifying := true
    excluded := false }

/-- A minimal raw activity with the given elapsed time, average HR and speed. -/
def mkRaw (elapsed : ℚ) (ahr : Option ℚ) (speed : ℚ) : RawActivity :=
  { id := 1
    name := "raw"
    start_date := 0
    elapsed_time := elapsed
    distance := 1000
    average_speed := speed
    average_heartrate := ahr
    average_cadence := none
    total_elevation_gain := none }

/-- A stream set with the given heart-rate and velocity sequences only. -/
def mkStreams (hr velocity : List ℚ) : StreamData :=
  { heartrate := some hr
    cadence := none
    velocity_smooth := some velocity
    time := none
    distance := none
    altitude := none }

/-- Spec §8's trend example: activities on day 0, day 10 and day 35 with
HR 150/140/130. -/
def trendEx : List MAFActivity :=
  [mkAct 0 150, mkAct (10 * msPerDay) 140, mkAct (35 * msPerDay) 130]

/-! ### Claim theorems -/

/-- The cardiac-drift value asserted by the specification (claim C2): both
halves are means over the heart-rate sequence truncated to
`len = min(|hr|, |velocity|)`, split at `floor(len/2)`. -/
def cardiacDriftClaim (hr velocity : List ℚ) : Option ℚ :=
  let len := min hr.length velocity.length
  let midpoint := len / 2
  if 0 < midpoint then
    let t := hr.take len
    let m1 := (t.take midpoint).sum / (midpoint : ℚ)
    let m2 := (t.drop midpoint).sum / ((len - midpoint : ℕ) : ℚ)
    if m1 = 0 then none else some (100 * (m2 - m1) / m1)
  else none

/-- C2: with heart-rate stream `[100, 100, 200]` and velocity stream `[1, 1]`
(`len = 2`, `midpoint = 1`), the claim's truncated-half formula gives drift 0,
but the code slices the second half from the UNTRUNCATED heart-rate sequence
(summing 100 + 200) while still dividing by `len - midpoint = 1`, producing
drift 200. -/
theorem analyzeActivity_drift_not_truncated :
    (analyzeActivity (mkRaw 1800 (some 100) 1) (some (mkStreams [100, 100, 200] [1, 1]))
        100 0 200 10 Units.km false).cardiac_drift = some 200 ∧
      cardiacDriftClaim [100, 100, 200] [1, 1] = some 0 ∧ (200 : ℚ) ≠ 0 :=
  ⟨by decide, by decide, by norm_num⟩

/-- C3 counterexample: `computeSummary` reads the wall clock; the same activity
list evaluated at day 40 and at day 300 yields different summaries (the 8-week
trend window contains all three activities in the first case and none in the
second). -/
theorem computeSummary_not_time_invariant :
    computeSummary trendEx (40 * msPerDay) ≠ computeSummary trendEx (300 * msPerDay) := by
  decide

/-- C3 (amended): `computeSummary` is a pure function of its activity list and
its evaluation time: two invocations on equal lists at equal reference times
return equal summaries. -/
theorem computeSummary_deterministic (acts1 acts2 : List MAFActivity) (now1 now2 : ℤ)
    (ha : acts1 = acts2) (hn : now1 = now2) :
    computeSummary acts1 now1 = computeSummary acts2 now2 := by
  rw [ha, hn]

/-- Witness for C3's amended theorem at a concrete list and time. -/
theorem computeSummary_deterministic_witness :
    computeSummary trendEx (40 * msPerDay) = computeSummary trendEx (40 * msPerDay) :=
  computeSummary_deterministic trendEx trendEx (40 * msPerDay) (40 * msPerDay) rfl rfl

/-- C4: the qualifying flag is true iff not excluded, elapsed duration
≥ 1200 s and qualifying-zone time ≥ 60 %; an activity of exactly 1200 s with
exactly 60 % qualifying-zone time qualifies, and one of 1199 s never
qualifies. -/
theorem analyzeActivity_qualifying_iff :
    (∀ (act : RawActivity) (streams : Option StreamData) (mafHr mafZoneLow mafZoneHigh
        qualifyingTolerance : ℚ) (units : Units) (excluded : Bool),
      ((analyzeActivity act streams mafHr mafZoneLow mafZoneHigh qualifyingTolerance units
          excluded).qualifying = true ↔
        excluded = false ∧ 1200 ≤ act.elapsed_time ∧
          60 ≤ (analyzeActivity act streams mafHr mafZoneLow mafZoneHigh qualifyingTolerance units
            excluded).time_in_qualifying_zone_pct)) ∧
    ((analyzeActivity (mkRaw 1200 (some 145) 1) (some (mkStreams [145, 145, 145, 200, 200]
        [1, 1, 1, 1, 1])) 145 140 150 10 Units.km false).duration_seconds = 1200 ∧
      (analyzeActivity (mkRaw 1200 (some 145) 1) (some (mkStreams [145, 145, 145, 200, 200]
        [1, 1, 1, 1, 1])) 145 140 150 10 Units.km false).time_in_qualifying_zone_pct = 60 ∧
      (analyzeActivity (mkRaw 1200 (some 145) 1) (some (mkStreams [145, 145, 145, 200, 200]
        [1, 1, 1, 1, 1])) 145 140 150 10 Units.km false).qualifying = true) ∧
    (∀ (act : RawActivity) (streams : Option StreamData) (mafHr mafZoneLow mafZoneHigh
        qualifyingTolerance : ℚ) (units : Units) (excluded : Bool),
      act.elapsed_time = 1199 →
      (analyzeActivity act streams mafHr mafZoneLow mafZoneHigh qualifyingTolerance units
        excluded).qualifying = false) := by
  refine ⟨?_, by decide, ?_⟩
  · intro act streams mafHr mafZoneLow mafZoneHigh qualifyingTolerance units excluded
    simp [analyzeActivity, Bool.and_eq_true, decide_eq_true_eq, Bool.not_eq_true', and_assoc]
  · intro act streams mafHr mafZoneLow mafZoneHigh qualifyingTolerance units excluded helapsed
    simp [analyzeActivity, helapsed]
    norm_num

/-- Witness for C4 applying the 1199-second part at a concrete input. -/
theorem analyzeActivity_qualifying_iff_witness :
    (analyzeActivity (mkRaw 1199 (some 145) 1) (some (mkStreams [145, 145] [1, 1]))
        145 140 150 10 Units.km false).qualifying = false :=
  analyzeActivity_qualifying_iff.2.2 (mkRaw 1199 (some 145) 1)
    (some (mkStreams [145, 145] [1, 1])) 145 140 150 10 Units.km false rfl

/-- C7: with no stream set and a positive activity-level average heart rate,
zone time is 75 % iff the average lies in `[zoneLow, zoneHigh]` else 25 %, the
same rule holds independently for `[zoneLow, zoneHigh + tolerance]`, and
drift, decoupling and in-zone cadence stay null. -/
theorem analyzeActivity_no_stream_coarse (act : RawActivity) (mafHr mafZoneLow mafZoneHigh
    qualifyingTolerance : ℚ) (units : Units) (excluded : Bool) (ahr : ℚ)
    (hahr : act.average_heartrate = some ahr) (hpos : 0 < ahr) :
    (analyzeActivity act none mafHr mafZoneLow mafZoneHigh qualifyingTolerance units
        excluded).time_in_maf_zone_pct =
      (if mafZoneLow ≤ ahr ∧ ahr ≤ mafZoneHigh then 75 else 25) ∧
    (analyzeActivity act none mafHr mafZoneLow mafZoneHigh qualifyingTolerance units
        excluded).time_in_qualifying_zone_pct =
      (if mafZoneLow ≤ ahr ∧ ahr ≤ mafZoneHigh + qualifyingTolerance then 75 else 25) ∧
    (analyzeActivity act none mafHr mafZoneLow mafZoneHigh qualifyingTolerance units
        excluded).cardiac_drift = none ∧
    (analyzeActivity act none mafHr mafZoneLow mafZoneHigh qualifyingTolerance units
        excluded).aerobic_decoupling = none ∧
    (analyzeActivity act none mafHr mafZoneLow mafZoneHigh qualifyingTolerance units
        excluded).cadence_in_zone = none := by
  have htruthy : jsTruthy act.average_heartrate = true := by
    simp [jsTruthy, hahr, hpos.ne']
  have hzero : jsOrZero act.average_heartrate = ahr := by simp [jsOrZero, hahr]
  simp [analyzeActivity, noStreamMetrics, htruthy, hzero]

/-- Witness for C7 at spec §8's concrete inputs (`average_heartrate = 145`,
zone 140–150, tolerance 10: in-zone ⇒ 75/75; the same activity against zone
150–160 would fall outside). -/
theorem analyzeActivity_no_stream_coarse_witness :
    (analyzeActivity (mkRaw 1800 (some 145) 1) none 145 140 150 10 Units.km
        false).time_in_maf_zone_pct = 75 ∧
      (analyzeActivity (mkRaw 1800 (some 145) 1) none 145 140 150 10 Units.km
        false).time_in_qualifying_zone_pct = 75 ∧
      (analyzeActivity (mkRaw 1800 (some 145) 1) none 145 140 150 10 Units.km
        false).cardiac_drift = none := by
  have h := analyzeActivity_no_stream_coarse (mkRaw 1800 (some 145) 1) 145 140 150 10 Units.km
    false 145 rfl (by norm_num)
  exact ⟨h.1.trans (by decide), h.2.1.trans (by decide), h.2.2.1⟩

/-- C10: with no usable streams (no stream set, or one lacking the heart-rate
or velocity sequence) and an absent or zero activity-level average heart rate,
both zone percentages are 0 (not the 25 % floor) and the activity does not
qualify. -/
theorem analyzeActivity_no_data_zero (act : RawActivity) (streams : Option StreamData)
    (mafHr mafZoneLow mafZoneHigh qualifyingTolerance : ℚ) (units : Units) (excluded : Bool)
    (hstreams : streams = none ∨
      ∃ s, streams = some s ∧ (s.heartrate = none ∨ s.velocity_smooth = none))
    (hahr : act.average_heartrate = none ∨ act.average_heartrate = some 0) :
    (analyzeActivity act streams mafHr mafZoneLow mafZoneHigh qualifyingTolerance units
        excluded).time_in_maf_zone_pct = 0 ∧
    (analyzeActivity act streams mafHr mafZoneLow mafZoneHigh qualifyingTolerance units
        excluded).time_in_qualifying_zone_pct = 0 ∧
    (analyzeActivity act streams mafHr mafZoneLow mafZoneHigh qualifyingTolerance units
        excluded).qualifying = false := by
  have htruthy : jsTruthy act.average_heartrate = false := by
    rcases hahr with h | h <;> simp [jsTruthy, h]
  rcases hstreams with h | ⟨s, hs, hsv⟩
  · subst h
    simp [analyzeActivity, noStreamMetrics, htruthy]
  · subst hs
    rcases hsv with hh | hv
    · simp [analyzeActivity, hh, noStreamMetrics, htruthy]
    · cases hhr : s.heartrate <;>
        simp [analyzeActivity, hhr, hv, noStreamMetrics, htruthy]

/-- Witness for C10 at a concrete input: stream set present but with no
heart-rate sequence, and a zero average heart rate. -/
theorem analyzeActivity_no_data_zero_witness :
    (analyzeActivity (mkRaw 1800 (some 0) 1)
        (some { heartrate := none, cadence := none, velocity_smooth := some [1, 1],
                time := none, distance := none, altitude := none })
        145 140 150 10 Units.km false).time_in_maf_zone_pct = 0 ∧
      (analyzeActivity (mkRaw 1800 (some 0) 1)
        (some { heartrate := none, cadence := none, velocity_smooth := some [1, 1],
                time := none, distance := none, altitude := none })
        145 140 150 10 Units.km false).time_in_qualifying_zone_pct = 0 ∧
      (analyzeActivity (mkRaw 1800 (some 0) 1)
        (some { heartrate := none, cadence := none, velocity_smooth := some [1, 1],
                time := none, distance := none, altitude := none })
        145 140 150 10 Units.km false).qualifying = false :=
  analyzeActivity_no_data_zero (mkRaw 1800 (some 0) 1) _ 145 140 150 10 Units.km false
    (Or.inr ⟨_, rfl, Or.inl rfl⟩) (Or.inr rfl)

/-- The `formatPace` output shape asserted by claim C8: floor of the pace as
minutes, the fractional part times 60 rounded to nearest as seconds,
zero-padded to two digits, rendered `"M:SS /unit"`, with no carry from the
seconds into the minutes. -/
def formatPaceSpec (pace : ℚ) (units : Units) : String :=
  toString ⌊pace⌋ ++ ":" ++ padStart2 (toString (round (Int.fract pace * 60))) ++ " /" ++
    unitsStr units

/-- C8: `formatPace` renders every non-negative pace in the claimed shape; at
pace 5.999 the seconds round to 60 and are emitted as `"60"` without carrying
into the minutes; and `formatPace(velocityToPace(3.0, km), km) = "5:33 /km"`. -/
theorem formatPace_shape :
    (∀ (pace : ℚ) (units : Units), 0 ≤ pace → formatPace pace units = formatPaceSpec pace units) ∧
    formatPace (5999 / 1000) Units.km = "5:60 /km" ∧
    formatPace (velocityToPace 3 Units.km) Units.km = "5:33 /km" := by
  refine ⟨fun pace units _ => ?_, by decide, by decide⟩
  unfold formatPace formatPaceSpec Int.fract
  rfl

/-- Witness for C8's universally quantified part at the concrete pace
`velocityToPace(3.0, km) = 50/9`. -/
theorem formatPace_shape_witness :
    formatPace (50 / 9) Units.km = formatPaceSpec (50 / 9) Units.km :=
  formatPace_shape.1 (50 / 9) Units.km (by norm_num)

/-- C9: whenever `zoneLow ≤ zoneHigh` and `qualifyingTolerance ≥ 0`, the
analyzed activity satisfies
`time_in_maf_zone_pct ≤ time_in_qualifying_zone_pct`, on both the stream path
and the coarse-estimate path. -/
theorem analyzeActivity_zone_le_qualifying (act : RawActivity) (streams : Option StreamData)
    (mafHr mafZoneLow mafZoneHigh qualifyingTolerance : ℚ) (units : Units) (excluded : Bool)
    (hlohi : mafZoneLow ≤ mafZoneHigh) (htol : 0 ≤ qualifyingTolerance) :
    (analyzeActivity act streams mafHr mafZoneLow mafZoneHigh qualifyingTolerance units
        excluded).time_in_maf_zone_pct ≤
      (analyzeActivity act streams mafHr mafZoneLow mafZoneHigh qualifyingTolerance units
        excluded).time_in_qualifying_zone_pct := by
  have hq : mafZoneHigh ≤ mafZoneHigh + qualifyingTolerance := by linarith
  cases streams with
  | none =>
    simpa [analyzeActivity] using
      noStreamMetrics_pct_le mafZoneLow mafZoneHigh (mafZoneHigh + qualifyingTolerance) hq act _
  | some s =>
    cases hhr : s.heartrate with
    | none =>
      simpa [analyzeActivity, hhr] using
        noStreamMetrics_pct_le mafZoneLow mafZoneHigh (mafZoneHigh + qualifyingTolerance) hq act _
    | some hrData =>
      cases hv : s.velocity_smooth with
      | none =>
        simpa [analyzeActivity, hhr, hv] using
          noStreamMetrics_pct_le mafZoneLow mafZoneHigh (mafZoneHigh + qualifyingTolerance) hq act _
      | some velData =>
        simpa [analyzeActivity, hhr, hv] using
          analyzeStreams_pct_le mafZoneLow mafZoneHigh (mafZoneHigh + qualifyingTolerance) hq
            hrData velData s.cadence units _

/-- Witness for C9 at a concrete stream-path input. -/
theorem analyzeActivity_zone_le_qualifying_witness :
    (analyzeActivity (mkRaw 1200 (some 145) 1) (some (mkStreams [145, 145, 145, 200, 200]
        [1, 1, 1, 1, 1])) 145 140 150 10 Units.km false).time_in_maf_zone_pct ≤
      (analyzeActivity (mkRaw 1200 (some 145) 1) (some (mkStreams [145, 145, 145, 200, 200]
        [1, 1, 1, 1, 1])) 145 140 150 10 Units.km false).time_in_qualifying_zone_pct :=
  analyzeActivity_zone_le_qualifying (mkRaw 1200 (some 145) 1)
    (some (mkStreams [145, 145, 145, 200, 200] [1, 1, 1, 1, 1])) 145 140 150 10 Units.km false
    (by norm_num) (by norm_num)

/-- C6: whenever the most recent activity lies at least 3 days before the
evaluation time, `generateAdvice` returns the consistency advice — for every
summary, so in particular also when the current average HR exceeds the MAF
target by more than 5. -/
theorem generateAdvice_consistency_priority (summary : MAFSummary) (acts : List MAFActivity)
    (mafHr mafZoneLow mafZoneHigh : ℤ) (units : Units) (now : ℤ) (hne : acts ≠ [])
    (hgap : ∀ a ∈ acts, a.date + 3 * msPerDay ≤ now) :
    generateAdvice summary acts mafHr mafZoneLow mafZoneHigh units now =
      adviceConsistency (daysSinceLastRun acts now) (zoneStr mafZoneLow mafZoneHigh) := by
  have h3 := daysSinceLastRun_ge_three acts now hne hgap
  simp only [generateAdvice]
  rw [if_pos h3]

/-- A summary whose current average HR is far above a 145 bpm MAF target. -/
def highHrSummary : MAFSummary :=
  { emptySummary with currentAvgHr := some 160, zoneDiscipline := some 80 }

/-- Witness for C6: last run 5 days ago and current HR 15 bpm above target
still selects the consistency advice. -/
theorem generateAdvice_consistency_priority_witness :
    ((5 : ℚ) < jsOrZero highHrSummary.currentAvgHr - 145) ∧
      generateAdvice highHrSummary [mkAct 0 150] 145 140 150 Units.km (5 * msPerDay) =
        adviceConsistency 5 (zoneStr 140 150) := by
  refine ⟨by norm_num [highHrSummary, emptySummary, jsOrZero], ?_⟩
  have h := generateAdvice_consistency_priority highHrSummary [mkAct 0 150] 145 140 150 Units.km
    (5 * msPerDay) (by decide) (by decide)
  rw [h, show daysSinceLastRun [mkAct 0 150] (5 * msPerDay) = 5 from by decide]

/-- The rolling-HR value asserted by claim C5 for the activity at index `i`:
the window is the prefix up to and including `i`, restricted to dates within
the trailing 28 days of that activity's date (inclusive), and the rolling
value is the arithmetic mean of `avg_hr` when the window has at least two
members, else null. -/
def rollingHrClaim (acts : List MAFActivity) (i : ℕ) (a : MAFActivity) : Option ℚ :=
  let window := (acts.take (i + 1)).filter (fun w => decide (a.date - 28 * msPerDay ≤ w.date))
  if 2 ≤ window.length then some ((window.map (·.avg_hr)).sum / (window.length : ℚ)) else none

/-- C5: on a non-excluded, date-ascending activity list, the `i`-th trend
point's rolling HR is exactly the claimed inclusive 28-day windowed mean
(null below two window members). -/
theorem computeTrends_rolling_window (acts : List MAFActivity)
    (hex : ∀ a ∈ acts, a.excluded = false)
    (hsort : acts.Pairwise (fun a b => a.date ≤ b.date))
    (i : ℕ) (a : MAFActivity) (ha : acts[i]? = some a) :
    ((computeTrends acts)[i]?).map (·.rollingHr) = some (rollingHrClaim acts i a) := by
  have hincl : acts.filter (fun x => !x.excluded) = acts := by
    rw [List.filter_eq_self]
    intro b hb
    simp [hex b hb]
  have hlen : ¬acts.length = 0 := by
    intro h0
    rw [List.length_eq_zero] at h0
    subst h0
    simp at ha
  simp only [computeTrends]
  rw [hincl, sortByDateAsc_eq_self hsort, if_neg hlen, jsMapIdx_getElem?, ha]
  simp only [Option.map_some']
  congr 1
  simp only [trendPoint, rollingHrClaim, Nat.zero_add]
  rw [jsFilterIdx_take_filter (fun w => decide (a.date - 28 * msPerDay ≤ w.date)) i acts 0]
  simp only [Nat.sub_zero]

/-- Witness for C5 at spec §8's example (day 0 / day 10 / day 35 with HR
150/140/130): the day-35 point rolls to 135 and the day-0 point is null. -/
theorem computeTrends_rolling_window_witness :
    (((computeTrends trendEx)[2]?).map (·.rollingHr) = some (some 135)) ∧
      (((computeTrends trendEx)[0]?).map (·.rollingHr) = some none) :=
  ⟨(computeTrends_rolling_window trendEx (by decide) (by decide) 2 (mkAct (35 * msPerDay) 130)
      (by decide)).trans (by decide),
   (computeTrends_rolling_window trendEx (by decide) (by decide) 0 (mkAct 0 150)
      (by decide)).trans (by decide)⟩

/-- A strictly decreasing 4-point HR series spread across the trailing 8 weeks
(relative to day 60) whose least-squares slope is only −0.05 bpm/week. -/
def shallowHrSeries : List MAFActivity :=
  [mkAct (4 * msPerDay) 150, mkAct (22 * msPerDay) (1499 / 10),
   mkAct (40 * msPerDay) (1498 / 10), mkAct (58 * msPerDay) (1497 / 10)]

/-- C1 counterexample: this strictly decreasing 4-point series, dated across
the trailing 8 weeks (so the trend window holds all 4 ≥ 3 points), yields
`hrTrendDirection = plateau`, not `improving` — its regression slope −0.05
does not clear the −0.3 threshold. -/
theorem computeSummary_shallow_decrease_plateau :
    shallowHrSeries.Pairwise (fun a b => a.date < b.date ∧ b.avg_hr < a.avg_hr) ∧
    (∀ a ∈ shallowHrSeries, 60 * msPerDay - 56 * msPerDay ≤ a.date ∧ a.date ≤ 60 * msPerDay) ∧
    shallowHrSeries.length = 4 ∧
    3 ≤ (summaryTrendWindow shallowHrSeries (60 * msPerDay)).length ∧
    (computeSummary shallowHrSeries (60 * msPerDay)).hrTrendDirection = Direction.plateau := by
  refine ⟨by decide, by decide, by decide, by decide, by decide⟩

/-- C1 (amended): whenever the 8-week trend window holds at least 3 points and
the least-squares HR slope is below −0.3 bpm/week — as for any 4-point series
decreasing steeply enough — `computeSummary` classifies the HR trend as
`improving`. -/
theorem computeSummary_hr_slope_improving (acts : List MAFActivity) (now : ℤ)
    (h3 : 3 ≤ (summaryTrendWindow acts now).length)
    (hs : linearSlope (hrPoints acts now) < -(3 / 10)) :
    (computeSummary acts now).hrTrendDirection = Direction.improving := by
  have hlen : ¬(acts.filter (fun a => !a.excluded)).length = 0 := by
    intro h0
    have hle : (summaryTrendWindow acts now).length ≤
        (acts.filter (fun a => !a.excluded)).length := by
      unfold summaryTrendWindow summarySorted sortByDateAsc
      exact le_trans (List.length_filter_le _ _) (le_of_eq (List.length_mergeSort _))
    omega
  simp only [computeSummary]
  rw [if_neg hlen]
  show summaryHrDirection acts now = Direction.improving
  unfold summaryHrDirection
  rw [if_pos h3]
  unfold hrDirectionOfSlope
  rw [if_pos hs]

/-- A strictly decreasing 4-point HR series dropping 10 bpm every 18 days. -/
def steepHrSeries : List MAFActivity :=
  [mkAct (4 * msPerDay) 150, mkAct (22 * msPerDay) 140, mkAct (40 * msPerDay) 130,
   mkAct (58 * msPerDay) 120]

/-- Witness for C1's amended theorem on a steeply decreasing series. -/
theorem computeSummary_hr_slope_improving_witness :
    (computeSummary steepHrSeries (60 * msPerDay)).hrTrendDirection = Direction.improving :=
  computeSummary_hr_slope_improving steepHrSeries (60 * msPerDay) (by decide) (by decide)

end Maf
